import Mathlib

/-!
Verification of the janata-book-backend order relay (`src/server.js`).

A shallow embedding of the `POST /api/create-order` Express handler.

Modelling conventions:
* JavaScript values are `JSVal` (undefined, null, booleans, numbers,
  strings, arrays, objects).  JavaScript numbers are `JSNum`: exact
  rationals extended with `NaN` and the two infinities; IEEE rounding is
  abstracted away (every arithmetic step the handler performs is exact on
  the inputs the handler accepts).
* The handler's side effects are made explicit: the current date and the
  `SHIPROCKET_PICKUP_LOCATION` environment variable are parameters of the
  payload mapper, the single outbound `axios.post` is a `gw` oracle
  argument, and the run result records how many times the oracle was
  invoked and which log events fired.
-/

inductive JSNum where
  | nan : JSNum
  | inf : JSNum
  | ninf : JSNum
  | fin : ℚ → JSNum
deriving DecidableEq

inductive JSVal where
  | undefined : JSVal
  | null : JSVal
  | bool : Bool → JSVal
  | num : JSNum → JSVal
  | str : String → JSVal
  | arr : List JSVal → JSVal
  | obj : List (String × JSVal) → JSVal

namespace JSNum

/-- JavaScript `+` on two numbers (NaN and infinity propagation;
finite addition is exact, abstracting IEEE rounding). -/
def add : JSNum → JSNum → JSNum
  | nan, _ => nan
  | _, nan => nan
  | inf, ninf => nan
  | ninf, inf => nan
  | inf, _ => inf
  | _, inf => inf
  | ninf, _ => ninf
  | _, ninf => ninf
  | fin a, fin b => fin (a + b)

/-- JavaScript `0.5 * x` (the weight computation in the handler). -/
def mulHalf : JSNum → JSNum
  | nan => nan
  | inf => inf
  | ninf => ninf
  | fin a => fin (a / 2)

end JSNum

namespace JSVal

/-- JavaScript truthiness: `undefined`, `null`, `false`, `NaN`, `0` and
`""` are falsy; every other value (all objects and arrays included) is
truthy.  This is what `!x` in the source tests. -/
def truthy : JSVal → Bool
  | undefined => false
  | null => false
  | bool b => b
  | num .nan => false
  | num (.fin q) => q != 0
  | num _ => true
  | str s => s != ""
  | arr _ => true
  | obj _ => true

/-- Non-throwing property access `v.k`: on an object the first binding
for `k` (`undefined` when absent); on a non-object, non-null receiver
boxing yields no own properties, giving `undefined`.  Access on `null`
or `undefined` throws a TypeError in JavaScript and is NOT this
function: the two handler sites where a nullish receiver is reachable
(the cart-item scan and `response.data`) are modelled with
`accessThrows` and an explicit error path instead. -/
def getField (v : JSVal) (k : String) : JSVal :=
  match v with
  | obj fields =>
    match fields.find? (fun p => p.1 == k) with
    | some p => p.2
    | none => undefined
  | _ => undefined

/-- Property access on `null` or `undefined` throws a TypeError; on
every other value it is safe (primitives box, objects look up). -/
def accessThrows : JSVal → Bool
  | null => true
  | undefined => true
  | _ => false

/-- Message of the TypeError thrown by property access on a nullish
receiver (the quotes Node puts around the property name are elided). -/
def readPropError (v : JSVal) (k : String) : String :=
  match v with
  | null => "Cannot read properties of null (reading " ++ k ++ ")"
  | _ => "Cannot read properties of undefined (reading " ++ k ++ ")"

/-- The `Array.isArray` test. -/
def isArray : JSVal → Bool
  | arr _ => true
  | _ => false

/-- The element list of an array value (the handler only reads it after
`Array.isArray` has succeeded). -/
def asList : JSVal → List JSVal
  | arr xs => xs
  | _ => []

/-- The `Number.isFinite` test: true exactly on finite numbers, no
coercion. -/
def isFiniteNum : JSVal → Bool
  | num (.fin _) => true
  | _ => false

/-- JavaScript `v <= 0`.  The source evaluates this only behind a
short-circuiting `Number.isFinite(v)` guard, so only the finite-number
case is ever reached; the other cases follow IEEE comparison on the
numeric branches and are `false` elsewhere. -/
def leZero : JSVal → Bool
  | num (.fin q) => decide (q ≤ 0)
  | num .ninf => true
  | _ => false

/-- JavaScript `v < 0`, likewise only reached behind a
`Number.isFinite(v)` guard in the source. -/
def ltZero : JSVal → Bool
  | num (.fin q) => decide (q < 0)
  | num .ninf => true
  | _ => false

/-- JavaScript strict equality `v === 0`. -/
def strictEqZero : JSVal → Bool
  | num (.fin q) => q == 0
  | _ => false

/-- JavaScript `a || b`: the first operand when truthy, otherwise the
second. -/
def jsOr (a b : JSVal) : JSVal :=
  if truthy a then a else b

/-- JavaScript `ToNumber`, used by `sum + item.quantity` in the weight
fold.  The fold only ever runs after cart validation has established
that every `quantity` is a finite number, so only the `num` case is
reachable there; the remaining primitive cases follow the JavaScript
coercion table, with numeric string parsing abstracted to `NaN`. -/
def toNum : JSVal → JSNum
  | undefined => .nan
  | null => .fin 0
  | bool b => .fin (if b then 1 else 0)
  | num n => n
  | str s => if s == "" then .fin 0 else .nan
  | arr _ => .nan
  | obj _ => .nan

/-- JavaScript `ToString`, used by the template literal
`` `SKU-${item.id}` ``.  Finite non-integral numbers and arrays get a
deterministic stand-in for JavaScript's decimal formatting / join
(reachable for truthy non-string ids); the sku theorems below are
stated through this function, so no theorem's truth depends on the
stand-in text. -/
def toStr : JSVal → String
  | undefined => "undefined"
  | null => "null"
  | bool true => "true"
  | bool false => "false"
  | str s => s
  | num .nan => "NaN"
  | num .inf => "Infinity"
  | num .ninf => "-Infinity"
  | num (.fin q) => if q.den == 1 then toString q.num else toString q
  | arr _ => ""
  | obj _ => "[object Object]"

end JSVal

open JSVal

/-- The fields the handler destructures from `req.body`; a field absent
from the JSON body destructures to `undefined`.  `deliveryDays` is
destructured by the source but never used. -/
structure ReqBody where
  orderId : JSVal := .undefined
  cart : JSVal := .undefined
  formData : JSVal := .undefined
  totalAmount : JSVal := .undefined
  shippingCost : JSVal := .undefined
  couponDiscount : JSVal := .undefined
  paymentId : JSVal := .undefined
  deliveryDays : JSVal := .undefined

/-- One entry of `payload.order_items`, as built by `cart.map(...)`. -/
structure OrderItem where
  name : JSVal
  sku : String
  units : JSVal
  selling_price : JSVal
  discount : ℚ
  tax : ℚ
  hsn : String

/-- The Shiprocket order-creation payload built by the handler.  Fields
set from literals in the source are typed concretely; fields copied from
the request keep type `JSVal`. -/
structure Payload where
  order_id : JSVal
  order_date : String
  pickup_location : String
  channel_id : String
  comment : String
  billing_customer_name : JSVal
  billing_last_name : String
  billing_address : JSVal
  billing_city : JSVal
  billing_pincode : JSVal
  billing_state : JSVal
  billing_country : String
  billing_email : JSVal
  billing_phone : JSVal
  shipping_is_billing : Bool
  shipping_customer_name : JSVal
  shipping_last_name : String
  shipping_address : JSVal
  shipping_city : JSVal
  shipping_pincode : JSVal
  shipping_country : String
  shipping_state : JSVal
  shipping_email : JSVal
  shipping_phone : JSVal
  order_items : List OrderItem
  payment_method : String
  shipping_charges : JSVal
  giftwrap_charges : ℚ
  transaction_charges : ℚ
  total_discount : JSVal
  sub_total : JSVal
  length : ℚ
  breadth : ℚ
  height : ℚ
  weight : JSNum

/-- The predicate of `cart.find(item => ...)`: an item is invalid when
`id` or `name` is falsy, `price` or `quantity` is not a finite number,
or `quantity <= 0`. -/
def invalidCartItem (item : JSVal) : Bool :=
  !truthy (getField item "id") || !truthy (getField item "name") ||
  !isFiniteNum (getField item "price") || !isFiniteNum (getField item "quantity") ||
  leZero (getField item "quantity")

/-- The scan `cart.find(item => !item.id || ...)` with JavaScript's
property-access semantics: items are visited in order; visiting a
`null`/`undefined` item throws a TypeError out of `find` (first access
is `item.id`), a visited invalid item is returned as the find result,
and otherwise the scan continues. -/
def findInvalidCartItem : List JSVal → Except String (Option JSVal)
  | [] => .ok none
  | item :: rest =>
    if accessThrows item then .error (readPropError item "id")
    else if invalidCartItem item then .ok (some item)
    else findInvalidCartItem rest

/-- One step of `cart.reduce((sum, item) => sum + item.quantity, 0)`.
The fold runs only after cart validation, so every `quantity` reaching
it is a finite number and the `+` is numeric. -/
def addQuantity (sum : JSNum) (item : JSVal) : JSNum :=
  JSNum.add sum (toNum (getField item "quantity"))

/-- The `cart.map(item => ({...}))` entry builder. -/
def mkOrderItem (item : JSVal) : OrderItem :=
  { name := getField item "name"
    sku := "SKU-" ++ toStr (getField item "id")
    units := getField item "quantity"
    selling_price := getField item "price"
    discount := 0
    tax := 0
    hsn := "4901" }

/-- Value of `process.env.SHIPROCKET_PICKUP_LOCATION || 'Primary'`:
an unset or empty environment variable falls back to `'Primary'`. -/
def pickupLocation (env : Option String) : String :=
  match env with
  | some s => if s == "" then "Primary" else s
  | none => "Primary"

/-- The payload construction of the handler (source lines 106-155),
with the current date string (`new Date().toISOString().split('T')[0]`)
and the pickup-location environment variable passed explicitly. -/
def mapPayload (b : ReqBody) (orderDate : String) (pickupEnv : Option String) : Payload :=
  { order_id := b.orderId
    order_date := orderDate
    pickup_location := pickupLocation pickupEnv
    channel_id := ""
    comment := "Order from Janata Books Point"
    billing_customer_name := getField b.formData "name"
    billing_last_name := ""
    billing_address := getField b.formData "address"
    billing_city := jsOr (getField b.formData "city") (.str "")
    billing_pincode := getField b.formData "pincode"
    billing_state := getField b.formData "state"
    billing_country := "India"
    billing_email := getField b.formData "email"
    billing_phone := getField b.formData "phone"
    shipping_is_billing := true
    shipping_customer_name := getField b.formData "name"
    shipping_last_name := ""
    shipping_address := getField b.formData "address"
    shipping_city := jsOr (getField b.formData "city") (.str "")
    shipping_pincode := getField b.formData "pincode"
    shipping_country := "India"
    shipping_state := getField b.formData "state"
    shipping_email := getField b.formData "email"
    shipping_phone := getField b.formData "phone"
    order_items := (asList b.cart).map mkOrderItem
    payment_method := "Prepaid"
    shipping_charges := jsOr b.shippingCost (.num (.fin 0))
    giftwrap_charges := 0
    transaction_charges := 0
    total_discount := jsOr b.couponDiscount (.num (.fin 0))
    sub_total := b.totalAmount
    length := 30
    breadth := 20
    height := 5
    weight := JSNum.mulHalf ((asList b.cart).foldl addQuantity (.fin 0)) }

/-- Outcome of the single `axios.post` to the provider: a 2xx response
carrying `response.data`, an HTTP error carrying `error.response.status`,
`error.response.data` and `error.message`, or a network/timeout error
carrying only `error.message`. -/
inductive AxiosOutcome where
  | ok : JSVal → AxiosOutcome
  | httpError : Nat → JSVal → String → AxiosOutcome
  | netError : String → AxiosOutcome

/-- A JSON response body sent by the handler: either
`{success:false, error, details?}` or
`{success:true, shiprocketOrderId, message}`. -/
inductive RespBody where
  | err : String → Option JSVal → RespBody
  | okBody : JSVal → String → RespBody

/-- The observable result of one run of the handler: HTTP status and
body, how many times the provider gateway was invoked, whether the
zero-total warning was logged, and which invalid cart item (if any) was
logged. -/
structure HandlerRun where
  status : Nat
  body : RespBody
  gatewayCalls : Nat
  warnedZeroTotal : Bool
  loggedInvalidItem : Option JSVal

/-- The guard of the first check (source line 76):
`!orderId || !cart || !Array.isArray(cart) || cart.length === 0 ||
!formData || !paymentId`. -/
def failsPresence (b : ReqBody) : Bool :=
  !truthy b.orderId || !truthy b.cart || !isArray b.cart ||
  (asList b.cart).length == 0 || !truthy b.formData || !truthy b.paymentId

/-- The guard of the second check (source line 87), on the `formData`
value: some of `name/email/phone/address/pincode/state` is falsy. -/
def failsShippingForm (fd : JSVal) : Bool :=
  !truthy (getField fd "name") || !truthy (getField fd "email") ||
  !truthy (getField fd "phone") || !truthy (getField fd "address") ||
  !truthy (getField fd "pincode") || !truthy (getField fd "state")

/-- The guard of the fourth check (source line 98), on the `totalAmount`
value: `!Number.isFinite(totalAmount) || totalAmount < 0`. -/
def failsTotal (v : JSVal) : Bool :=
  !isFiniteNum v || ltZero v

/-- A 400 rejection: `res.status(400).json({success:false, error})` with
no gateway call and no warning. -/
def rejected (e : String) : HandlerRun :=
  { status := 400, body := .err e none,
    gatewayCalls := 0, warnedZeroTotal := false, loggedInvalidItem := none }

/-- The generic 500 of the catch block when the caught error carries no
`response` (a network failure, or a TypeError thrown inside the try):
`{success:false, error:"Failed to create order in Shiprocket",
details: error.message}`.  `calls`/`warned` record how far the try got
before throwing. -/
def serverError (msg : String) (calls : Nat) (warned : Bool) : HandlerRun :=
  { status := 500,
    body := .err "Failed to create order in Shiprocket" (some (.str msg)),
    gatewayCalls := calls, warnedZeroTotal := warned, loggedInvalidItem := none }

/-- Translation of the single gateway outcome into the HTTP response:
the success continuation (source lines 171-177, which reads
`response.data.order_id` and so throws a TypeError into the catch when
the provider resolved with a nullish body) and the catch block
classifying 401, 422 and everything else (source lines 178-210). -/
def translateOutcome (warned : Bool) : AxiosOutcome → HandlerRun
  | .ok data =>
    if accessThrows data then
      serverError (readPropError data "order_id") 1 warned
    else
      { status := 200,
        body := .okBody (getField data "order_id") "Order created successfully in Shiprocket",
        gatewayCalls := 1, warnedZeroTotal := warned, loggedInvalidItem := none }
  | .httpError s data msg =>
    if s == 401 then
      { status := 401,
        body := .err "Shiprocket authentication failed"
          (some (.str "Invalid or expired Shiprocket token")),
        gatewayCalls := 1, warnedZeroTotal := warned, loggedInvalidItem := none }
    else if s == 422 then
      { status := 422,
        body := .err "Invalid order data for Shiprocket" (some data),
        gatewayCalls := 1, warnedZeroTotal := warned, loggedInvalidItem := none }
    else
      serverError msg 1 warned
  | .netError msg =>
    serverError msg 1 warned

/-- The `POST /api/create-order` handler (source lines 63-210).  `gw` is
the provider gateway: the handler calls it at most once, on the mapped
payload. -/
def createOrder (b : ReqBody) (orderDate : String) (pickupEnv : Option String)
    (gw : Payload → AxiosOutcome) : HandlerRun :=
  if failsPresence b then
    rejected "Missing required order data"
  else if failsShippingForm b.formData then
    rejected "Incomplete shipping details"
  else match findInvalidCartItem (asList b.cart) with
  | .error msg => serverError msg 0 false
  | .ok (some item) =>
    { rejected "Invalid cart item data" with loggedInvalidItem := some item }
  | .ok none =>
    if failsTotal b.totalAmount then
      rejected "Total amount must be a valid non-negative number"
    else
      translateOutcome (strictEqZero b.totalAmount) (gw (mapPayload b orderDate pickupEnv))

/-- The cart scan neither throws nor finds an invalid item. -/
def cartScanOk (l : List JSVal) : Bool :=
  match findInvalidCartItem l with
  | .ok none => true
  | _ => false

/-- All four validation checks pass: the handler reaches the mapping and
the outbound call. -/
def passesValidation (b : ReqBody) : Bool :=
  !failsPresence b && !failsShippingForm b.formData &&
  cartScanOk (asList b.cart) && !failsTotal b.totalAmount

/-- The rational value of a finite-number `quantity` field (0 on any
other shape; validated carts only contain the former). -/
def quantityVal (item : JSVal) : ℚ :=
  match getField item "quantity" with
  | .num (.fin q) => q
  | _ => 0

theorem createOrder_of_failsPresence (b : ReqBody) (d : String) (env : Option String)
    (gw : Payload → AxiosOutcome) (h : failsPresence b = true) :
    createOrder b d env gw = rejected "Missing required order data" := by
  simp [createOrder, h]

theorem createOrder_of_failsShippingForm (b : ReqBody) (d : String) (env : Option String)
    (gw : Payload → AxiosOutcome) (h1 : failsPresence b = false)
    (h2 : failsShippingForm b.formData = true) :
    createOrder b d env gw = rejected "Incomplete shipping details" := by
  simp [createOrder, h1, h2]

theorem createOrder_of_cartThrow (b : ReqBody) (d : String) (env : Option String)
    (gw : Payload → AxiosOutcome) (msg : String) (h1 : failsPresence b = false)
    (h2 : failsShippingForm b.formData = false)
    (h3 : findInvalidCartItem (asList b.cart) = .error msg) :
    createOrder b d env gw = serverError msg 0 false := by
  simp [createOrder, h1, h2, h3]

theorem createOrder_of_invalidCart (b : ReqBody) (d : String) (env : Option String)
    (gw : Payload → AxiosOutcome) (item : JSVal) (h1 : failsPresence b = false)
    (h2 : failsShippingForm b.formData = false)
    (h3 : findInvalidCartItem (asList b.cart) = .ok (some item)) :
    createOrder b d env gw =
      { rejected "Invalid cart item data" with loggedInvalidItem := some item } := by
  simp [createOrder, h1, h2, h3]

theorem createOrder_of_failsTotal (b : ReqBody) (d : String) (env : Option String)
    (gw : Payload → AxiosOutcome) (h1 : failsPresence b = false)
    (h2 : failsShippingForm b.formData = false)
    (h3 : findInvalidCartItem (asList b.cart) = .ok none)
    (h4 : failsTotal b.totalAmount = true) :
    createOrder b d env gw = rejected "Total amount must be a valid non-negative number" := by
  simp [createOrder, h1, h2, h3, h4]

theorem cartScanOk_iff (l : List JSVal) :
    cartScanOk l = true ↔ findInvalidCartItem l = .ok none := by
  unfold cartScanOk
  cases h : findInvalidCartItem l with
  | error msg => simp
  | ok o => cases o <;> simp

theorem createOrder_of_passes (b : ReqBody) (d : String) (env : Option String)
    (gw : Payload → AxiosOutcome) (h : passesValidation b = true) :
    createOrder b d env gw =
      translateOutcome (strictEqZero b.totalAmount) (gw (mapPayload b d env)) := by
  simp only [passesValidation, Bool.and_eq_true, Bool.not_eq_true'] at h
  obtain ⟨⟨⟨h1, h2⟩, h3⟩, h4⟩ := h
  rw [cartScanOk_iff] at h3
  simp [createOrder, h1, h2, h3, h4]

theorem findInvalidCartItem_ok_none_iff (l : List JSVal) :
    findInvalidCartItem l = .ok none ↔
      ∀ x ∈ l, accessThrows x = false ∧ invalidCartItem x = false := by
  induction l with
  | nil => simp [findInvalidCartItem]
  | cons x rest ih =>
    simp only [findInvalidCartItem, List.mem_cons]
    by_cases h1 : accessThrows x = true
    · simp [h1]
    · rw [Bool.not_eq_true] at h1
      by_cases h2 : invalidCartItem x = true
      · simp [h1, h2]
      · rw [Bool.not_eq_true] at h2
        simp only [h1, h2, Bool.false_eq_true, if_false, ih]
        constructor
        · intro hall
          rintro y (rfl | hy)
          · exact ⟨h1, h2⟩
          · exact hall y hy
        · intro hall y hy
          exact hall y (Or.inr hy)

theorem findInvalidCartItem_append (pre rest : List JSVal)
    (h : ∀ a ∈ pre, accessThrows a = false ∧ invalidCartItem a = false) :
    findInvalidCartItem (pre ++ rest) = findInvalidCartItem rest := by
  induction pre with
  | nil => rfl
  | cons x xs ih =>
    have hx := h x (List.mem_cons_self x xs)
    simp only [List.cons_append, findInvalidCartItem, hx.1, hx.2,
      Bool.false_eq_true, if_false]
    exact ih (fun a ha => h a (List.mem_cons_of_mem x ha))

theorem foldl_addQuantity (l : List JSVal)
    (h : ∀ x ∈ l, isFiniteNum (getField x "quantity") = true) :
    ∀ q : ℚ, l.foldl addQuantity (.fin q) = .fin (q + (l.map quantityVal).sum) := by
  induction l with
  | nil => intro q; simp
  | cons x xs ih =>
    intro q
    have hx := h x (List.mem_cons_self x xs)
    have hxq : toNum (getField x "quantity") = .fin (quantityVal x) := by
      unfold quantityVal
      cases hg : getField x "quantity" with
      | num n =>
        cases n with
        | fin v => simp [toNum]
        | nan => simp [isFiniteNum, hg] at hx
        | inf => simp [isFiniteNum, hg] at hx
        | ninf => simp [isFiniteNum, hg] at hx
      | undefined => simp [isFiniteNum, hg] at hx
      | null => simp [isFiniteNum, hg] at hx
      | bool c => simp [isFiniteNum, hg] at hx
      | str s => simp [isFiniteNum, hg] at hx
      | arr ys => simp [isFiniteNum, hg] at hx
      | obj fs => simp [isFiniteNum, hg] at hx
    have hrest : ∀ y ∈ xs, isFiniteNum (getField y "quantity") = true :=
      fun y hy => h y (List.mem_cons_of_mem x hy)
    simp only [List.foldl_cons, addQuantity, hxq, JSNum.add, List.map_cons, List.sum_cons]
    rw [ih hrest]
    ring_nf

/-- C1: for every request body in which `orderId` is missing, or `cart`
is missing or not a non-empty array, or `formData` is missing, or
`paymentId` is missing, the handler responds 400 with the
"Missing required order data" reason and the provider gateway is never
invoked (the rejection record has `gatewayCalls = 0`). -/
theorem createOrder_missing_data_400 (b : ReqBody) (d : String) (env : Option String)
    (gw : Payload → AxiosOutcome)
    (h : b.orderId = .undefined ∨ (∀ xs, b.cart = .arr xs → xs = []) ∨
         b.formData = .undefined ∨ b.paymentId = .undefined) :
    createOrder b d env gw = rejected "Missing required order data" := by
  apply createOrder_of_failsPresence
  rcases h with h | h | h | h
  · simp [failsPresence, h, truthy]
  · cases hb : b.cart with
    | arr xs =>
      have hxs := h xs hb
      simp [failsPresence, hb, asList, hxs]
    | undefined => simp [failsPresence, hb, truthy]
    | null => simp [failsPresence, hb, truthy]
    | bool c => simp [failsPresence, hb, isArray]
    | num n => simp [failsPresence, hb, isArray]
    | str s => simp [failsPresence, hb, isArray]
    | obj fs => simp [failsPresence, hb, isArray]
  · simp [failsPresence, h, truthy]
  · simp [failsPresence, h, truthy]

theorem createOrder_missing_data_400_witness :
    createOrder {} "2025-01-01" none (fun _ => .netError "down") =
      rejected "Missing required order data" :=
  createOrder_missing_data_400 {} "2025-01-01" none (fun _ => .netError "down") (Or.inl rfl)

/-- A submission passing presence and shipping-form checks whose only
cart item is JSON `null` (a value `express.json()` happily delivers). -/
def bodyNullCartItem : ReqBody :=
  { orderId := .str "O1"
    cart := .arr [.null]
    formData := .obj [("name", .str "A"), ("email", .str "E"), ("phone", .str "P"),
      ("address", .str "AD"), ("pincode", .str "PC"), ("state", .str "S")]
    totalAmount := .num (.fin 100)
    paymentId := .str "P1" }

/-- `bodyNullCartItem` with an invalid (negative) `totalAmount` as
well, so that both the cart check and the total check are violated. -/
def bodyNullCartBadTotal : ReqBody :=
  { bodyNullCartItem with totalAmount := .num (.fin (-1)) }

/-- C4 counterexample: a body violating both the cart-item check (its
item is `null`) and the total-amount check is answered with neither
check's reason — `null.id` throws inside `cart.find` and the handler
responds 500 with the generic failure body, so the earliest failing
check does not determine the response there. -/
theorem createOrder_null_item_defeats_check_order :
    createOrder bodyNullCartBadTotal "2025-01-01" none (fun _ => .netError "down") =
      serverError "Cannot read properties of null (reading id)" 0 false ∧
    (createOrder bodyNullCartBadTotal "2025-01-01" none
      (fun _ => .netError "down")).status = 500 ∧
    (createOrder bodyNullCartBadTotal "2025-01-01" none
      (fun _ => .netError "down")).status ≠ 400 :=
  ⟨rfl, rfl, by decide⟩

/-- C4 (amended): the four validation checks run in the source's fixed
order — presence, shipping form, cart items, total amount — and for a
body failing several checks the response carries the reason of the
earliest failing one, with one caveat: when the cart scan first hits a
`null`/`undefined` item it responds 500 (the TypeError reaches the
catch block) instead of any validation reason. -/
theorem createOrder_first_failure_wins (b : ReqBody) (d : String) (env : Option String)
    (gw : Payload → AxiosOutcome) :
    (failsPresence b = true →
      createOrder b d env gw = rejected "Missing required order data") ∧
    (failsPresence b = false → failsShippingForm b.formData = true →
      createOrder b d env gw = rejected "Incomplete shipping details") ∧
    (failsPresence b = false → failsShippingForm b.formData = false →
      ∀ msg, findInvalidCartItem (asList b.cart) = .error msg →
      createOrder b d env gw = serverError msg 0 false) ∧
    (failsPresence b = false → failsShippingForm b.formData = false →
      ∀ item, findInvalidCartItem (asList b.cart) = .ok (some item) →
      createOrder b d env gw =
        { rejected "Invalid cart item data" with loggedInvalidItem := some item }) ∧
    (failsPresence b = false → failsShippingForm b.formData = false →
      findInvalidCartItem (asList b.cart) = .ok none → failsTotal b.totalAmount = true →
      createOrder b d env gw = rejected "Total amount must be a valid non-negative number") :=
  ⟨createOrder_of_failsPresence b d env gw,
   createOrder_of_failsShippingForm b d env gw,
   fun h1 h2 msg h3 => createOrder_of_cartThrow b d env gw msg h1 h2 h3,
   fun h1 h2 item h3 => createOrder_of_invalidCart b d env gw item h1 h2 h3,
   createOrder_of_failsTotal b d env gw⟩

/-- A body with `paymentId` missing AND an invalid cart item (empty item
`id`): C4 says the presence reason wins. -/
def bodyMissingPaymentInvalidCart : ReqBody :=
  { orderId := .str "O1"
    cart := .arr [.obj [("id", .str ""), ("name", .str "Book"),
      ("price", .num (.fin 100)), ("quantity", .num (.fin 1))]]
    formData := .obj [("name", .str "A"), ("email", .str "E"), ("phone", .str "P"),
      ("address", .str "AD"), ("pincode", .str "PC"), ("state", .str "S")]
    totalAmount := .num (.fin 100) }

theorem createOrder_first_failure_wins_witness :
    createOrder bodyMissingPaymentInvalidCart "2025-01-01" none (fun _ => .netError "down") =
      rejected "Missing required order data" :=
  (createOrder_first_failure_wins bodyMissingPaymentInvalidCart "2025-01-01" none
    (fun _ => .netError "down")).1 (by decide)

theorem translateOutcome_gatewayCalls (w : Bool) (o : AxiosOutcome) :
    (translateOutcome w o).gatewayCalls = 1 := by
  cases o with
  | ok _ =>
    simp only [translateOutcome]
    split <;> rfl
  | netError _ => rfl
  | httpError s data msg =>
    simp only [translateOutcome]
    split
    · rfl
    · split <;> rfl

theorem translateOutcome_warned (w : Bool) (o : AxiosOutcome) :
    (translateOutcome w o).warnedZeroTotal = w := by
  cases o with
  | ok _ =>
    simp only [translateOutcome]
    split <;> rfl
  | netError _ => rfl
  | httpError s data msg =>
    simp only [translateOutcome]
    split
    · rfl
    · split <;> rfl

theorem translateOutcome_status_ne_400 (w : Bool) (o : AxiosOutcome) :
    (translateOutcome w o).status ≠ 400 := by
  cases o with
  | ok _ =>
    simp only [translateOutcome]
    split <;> simp [serverError]
  | netError _ => simp [translateOutcome, serverError]
  | httpError s data msg =>
    simp only [translateOutcome]
    split
    · simp
    · split <;> simp [serverError]

/-- C2 counterexample: the cart `[null]` contains an item with a
missing `id`/`name`, so the claim demands a 400 "Invalid cart item
data"; the real handler instead throws a TypeError on `null.id` inside
`cart.find` and responds 500 with the generic failure body, without
reporting any offending item. -/
theorem createOrder_null_cart_item_500 :
    createOrder bodyNullCartItem "2025-01-01" none (fun _ => .netError "down") =
      serverError "Cannot read properties of null (reading id)" 0 false ∧
    (createOrder bodyNullCartItem "2025-01-01" none
      (fun _ => .netError "down")).status = 500 ∧
    (createOrder bodyNullCartItem "2025-01-01" none
      (fun _ => .netError "down")).status ≠ 400 :=
  ⟨rfl, rfl, by decide⟩

/-- C2 (amended): for a submission passing the presence and
shipping-form checks the cart scan visits items in order; decompose the
cart as `pre ++ item :: suf` with every item of `pre` neither nullish
nor invalid.  If `item` is `null`/`undefined` the handler responds 500
(the TypeError from `item.id` reaches the catch block) with no outbound
call; if `item` is invalid (falsy `id`/`name`, non-finite `price` or
`quantity`, or `quantity <= 0`) the handler responds 400
"Invalid cart item data" and the logged item is exactly that first
offending item; with no nullish and no invalid item the cart check
passes and the handler moves on to the total-amount check. -/
theorem createOrder_invalid_cart_first_offender (b : ReqBody) (d : String)
    (env : Option String) (gw : Payload → AxiosOutcome)
    (h1 : failsPresence b = false) (h2 : failsShippingForm b.formData = false) :
    (∀ pre item suf, asList b.cart = pre ++ item :: suf →
      (∀ a ∈ pre, accessThrows a = false ∧ invalidCartItem a = false) →
      (accessThrows item = true →
        createOrder b d env gw = serverError (readPropError item "id") 0 false) ∧
      (accessThrows item = false → invalidCartItem item = true →
        createOrder b d env gw =
          { rejected "Invalid cart item data" with loggedInvalidItem := some item })) ∧
    ((∀ x ∈ asList b.cart, accessThrows x = false ∧ invalidCartItem x = false) →
      (failsTotal b.totalAmount = true →
        createOrder b d env gw = rejected "Total amount must be a valid non-negative number") ∧
      (failsTotal b.totalAmount = false →
        createOrder b d env gw =
          translateOutcome (strictEqZero b.totalAmount) (gw (mapPayload b d env)))) := by
  constructor
  · intro pre item suf hdec hpre
    have hscan : findInvalidCartItem (asList b.cart) =
        findInvalidCartItem (item :: suf) := by
      rw [hdec]
      exact findInvalidCartItem_append pre (item :: suf) hpre
    constructor
    · intro hthrow
      apply createOrder_of_cartThrow b d env gw _ h1 h2
      rw [hscan]
      simp [findInvalidCartItem, hthrow]
    · intro hsafe hinv
      apply createOrder_of_invalidCart b d env gw item h1 h2
      rw [hscan]
      simp [findInvalidCartItem, hsafe, hinv]
  · intro hall
    have hnone : findInvalidCartItem (asList b.cart) = .ok none :=
      (findInvalidCartItem_ok_none_iff _).mpr hall
    refine ⟨fun h4 => createOrder_of_failsTotal b d env gw h1 h2 hnone h4, fun h4 => ?_⟩
    apply createOrder_of_passes
    simp [passesValidation, h1, h2, h4, (cartScanOk_iff _).mpr hnone]

/-- A valid cart item (the first of `bodyWithLateInvalidItem`). -/
def validBookItem : JSVal :=
  .obj [("id", .str "B1"), ("name", .str "Book"),
    ("price", .num (.fin 100)), ("quantity", .num (.fin 1))]

/-- An invalid cart item (`quantity = 0`). -/
def zeroQuantityItem : JSVal :=
  .obj [("id", .str "B2"), ("name", .str "Atlas"),
    ("price", .num (.fin 50)), ("quantity", .num (.fin 0))]

/-- A submission whose first cart item is valid and whose second has
`quantity = 0` (invalid): the logged offender must be the second. -/
def bodyWithLateInvalidItem : ReqBody :=
  { orderId := .str "O1"
    cart := .arr [validBookItem, zeroQuantityItem]
    formData := .obj [("name", .str "A"), ("email", .str "E"), ("phone", .str "P"),
      ("address", .str "AD"), ("pincode", .str "PC"), ("state", .str "S")]
    totalAmount := .num (.fin 100)
    paymentId := .str "P1" }

theorem createOrder_invalid_cart_first_offender_witness :
    createOrder bodyWithLateInvalidItem "2025-01-01" none (fun _ => .netError "down") =
      { rejected "Invalid cart item data" with loggedInvalidItem := some zeroQuantityItem } :=
  (((createOrder_invalid_cart_first_offender bodyWithLateInvalidItem "2025-01-01" none
    (fun _ => .netError "down") (by decide) (by decide)).1
    [validBookItem] zeroQuantityItem [] rfl (by decide)).2) (by decide) (by decide)

/-- C3: once the first three checks pass, a `totalAmount` that is not a
finite number or is negative draws a 400 with the total-amount reason
and no gateway call, while `totalAmount = 0` is not rejected: the
handler proceeds (one gateway call, the zero-total warning logged, and a
200 when the provider succeeds with a non-nullish body — on a nullish
2xx body the success continuation itself throws reading
`response.data.order_id` and the catch answers 500). -/
theorem createOrder_totalAmount_validation (b : ReqBody) (d : String)
    (env : Option String) (gw : Payload → AxiosOutcome)
    (h1 : failsPresence b = false) (h2 : failsShippingForm b.formData = false)
    (h3 : findInvalidCartItem (asList b.cart) = .ok none) :
    (failsTotal b.totalAmount = true →
      createOrder b d env gw = rejected "Total amount must be a valid non-negative number") ∧
    (b.totalAmount = .num (.fin 0) →
      (createOrder b d env gw).gatewayCalls = 1 ∧
      (createOrder b d env gw).warnedZeroTotal = true ∧
      ∀ data, accessThrows data = false → gw (mapPayload b d env) = .ok data →
        (createOrder b d env gw).status = 200) := by
  refine ⟨fun h4 => createOrder_of_failsTotal b d env gw h1 h2 h3 h4, fun h0 => ?_⟩
  have h4 : failsTotal b.totalAmount = false := by rw [h0]; decide
  have hrun := createOrder_of_passes b d env gw
    (by simp [passesValidation, h1, h2, h4, (cartScanOk_iff _).mpr h3])
  refine ⟨?_, ?_, ?_⟩
  · rw [hrun]; exact translateOutcome_gatewayCalls _ _
  · rw [hrun, translateOutcome_warned, h0]; decide
  · intro data hthrow hgw
    rw [hrun, hgw]
    simp [translateOutcome, hthrow]

/-- `bodyWithLateInvalidItem` with a valid cart and `totalAmount = -1`. -/
def bodyTotalNegative : ReqBody :=
  { orderId := .str "O1"
    cart := .arr [.obj [("id", .str "B1"), ("name", .str "Book"),
      ("price", .num (.fin 100)), ("quantity", .num (.fin 1))]]
    formData := .obj [("name", .str "A"), ("email", .str "E"), ("phone", .str "P"),
      ("address", .str "AD"), ("pincode", .str "PC"), ("state", .str "S")]
    totalAmount := .num (.fin (-1))
    paymentId := .str "P1" }

/-- `bodyTotalNegative` with `totalAmount = 0` instead. -/
def bodyTotalZero : ReqBody :=
  { bodyTotalNegative with totalAmount := .num (.fin 0) }

theorem createOrder_totalAmount_validation_witness :
    (createOrder bodyTotalNegative "2025-01-01" none
        (fun _ => .ok (.obj [("order_id", .num (.fin 777))])) =
      rejected "Total amount must be a valid non-negative number") ∧
    (createOrder bodyTotalZero "2025-01-01" none
        (fun _ => .ok (.obj [("order_id", .num (.fin 777))]))).warnedZeroTotal = true ∧
    (createOrder bodyTotalZero "2025-01-01" none
        (fun _ => .ok (.obj [("order_id", .num (.fin 777))]))).status = 200 := by
  refine ⟨?_, ?_, ?_⟩
  · exact (createOrder_totalAmount_validation bodyTotalNegative "2025-01-01" none
      (fun _ => .ok (.obj [("order_id", .num (.fin 777))]))
      (by decide) (by decide) rfl).1 (by decide)
  · exact ((createOrder_totalAmount_validation bodyTotalZero "2025-01-01" none
      (fun _ => .ok (.obj [("order_id", .num (.fin 777))]))
      (by decide) (by decide) rfl).2 rfl).2.1
  · exact ((createOrder_totalAmount_validation bodyTotalZero "2025-01-01" none
      (fun _ => .ok (.obj [("order_id", .num (.fin 777))]))
      (by decide) (by decide) rfl).2 rfl).2.2
      (.obj [("order_id", .num (.fin 777))]) (by decide) rfl

/-- C5: for every validated submission, the mapped payload has the
spec's per-item shape, pairwise-equal billing/shipping address blocks
drawn from `formData`, `payment_method` "Prepaid", dimensions 30/20/5,
weight half the sum of the cart quantities, and zero
`shipping_charges`/`total_discount` when `shippingCost`/`couponDiscount`
are absent. -/
theorem mapPayload_valid_submission_shape (b : ReqBody) (d : String) (env : Option String)
    (h : passesValidation b = true) :
    (mapPayload b d env).order_items = (asList b.cart).map (fun item =>
      { name := getField item "name"
        sku := "SKU-" ++ toStr (getField item "id")
        units := getField item "quantity"
        selling_price := getField item "price"
        discount := 0, tax := 0, hsn := "4901" }) ∧
    (mapPayload b d env).billing_customer_name = (mapPayload b d env).shipping_customer_name ∧
    (mapPayload b d env).billing_last_name = (mapPayload b d env).shipping_last_name ∧
    (mapPayload b d env).billing_address = (mapPayload b d env).shipping_address ∧
    (mapPayload b d env).billing_city = (mapPayload b d env).shipping_city ∧
    (mapPayload b d env).billing_pincode = (mapPayload b d env).shipping_pincode ∧
    (mapPayload b d env).billing_state = (mapPayload b d env).shipping_state ∧
    (mapPayload b d env).billing_country = (mapPayload b d env).shipping_country ∧
    (mapPayload b d env).billing_email = (mapPayload b d env).shipping_email ∧
    (mapPayload b d env).billing_phone = (mapPayload b d env).shipping_phone ∧
    (mapPayload b d env).billing_customer_name = getField b.formData "name" ∧
    (mapPayload b d env).billing_address = getField b.formData "address" ∧
    (mapPayload b d env).billing_pincode = getField b.formData "pincode" ∧
    (mapPayload b d env).billing_state = getField b.formData "state" ∧
    (mapPayload b d env).billing_email = getField b.formData "email" ∧
    (mapPayload b d env).billing_phone = getField b.formData "phone" ∧
    (mapPayload b d env).payment_method = "Prepaid" ∧
    (mapPayload b d env).length = 30 ∧
    (mapPayload b d env).breadth = 20 ∧
    (mapPayload b d env).height = 5 ∧
    (mapPayload b d env).weight = .fin ((1 / 2) * ((asList b.cart).map quantityVal).sum) ∧
    (b.shippingCost = .undefined → (mapPayload b d env).shipping_charges = .num (.fin 0)) ∧
    (b.couponDiscount = .undefined → (mapPayload b d env).total_discount = .num (.fin 0)) := by
  have h3 : findInvalidCartItem (asList b.cart) = .ok none := by
    simp only [passesValidation, Bool.and_eq_true] at h
    exact (cartScanOk_iff _).mp h.1.2
  have hfin : ∀ x ∈ asList b.cart, isFiniteNum (getField x "quantity") = true := by
    intro x hx
    have hinv : invalidCartItem x = false :=
      ((findInvalidCartItem_ok_none_iff _).mp h3 x hx).2
    simp only [invalidCartItem, Bool.or_eq_false_iff, Bool.not_eq_false'] at hinv
    exact hinv.1.2
  refine ⟨rfl, rfl, rfl, rfl, rfl, rfl, rfl, rfl, rfl, rfl, rfl, rfl, rfl, rfl, rfl, rfl,
    rfl, rfl, rfl, rfl, ?_, ?_, ?_⟩
  · show JSNum.mulHalf ((asList b.cart).foldl addQuantity (.fin 0)) = _
    rw [foldl_addQuantity _ hfin 0]
    simp only [JSNum.mulHalf, JSNum.fin.injEq]
    ring
  · intro hsc
    show jsOr b.shippingCost (.num (.fin 0)) = _
    rw [hsc]
    rfl
  · intro hcd
    show jsOr b.couponDiscount (.num (.fin 0)) = _
    rw [hcd]
    rfl

/-- The worked example submission of the specification. -/
def exampleSubmission : ReqBody :=
  { orderId := .str "O1"
    cart := .arr [.obj [("id", .str "B1"), ("name", .str "Book"),
      ("price", .num (.fin 100)), ("quantity", .num (.fin 2))]]
    formData := .obj [("name", .str "A"), ("email", .str "a@x.com"),
      ("phone", .str "123"), ("address", .str "addr"),
      ("pincode", .str "110001"), ("state", .str "DL")]
    totalAmount := .num (.fin 200)
    paymentId := .str "P1" }

theorem mapPayload_valid_submission_shape_witness :
    (mapPayload exampleSubmission "2025-06-01" none).payment_method = "Prepaid" ∧
    (mapPayload exampleSubmission "2025-06-01" none).weight =
      .fin ((1 / 2) * ((asList exampleSubmission.cart).map quantityVal).sum) ∧
    (mapPayload exampleSubmission "2025-06-01" none).shipping_charges = .num (.fin 0) := by
  have hmain := mapPayload_valid_submission_shape exampleSubmission "2025-06-01" none (by decide)
  exact ⟨hmain.2.2.2.2.2.2.2.2.2.2.2.2.2.2.2.2.1,
    hmain.2.2.2.2.2.2.2.2.2.2.2.2.2.2.2.2.2.2.2.2.1,
    hmain.2.2.2.2.2.2.2.2.2.2.2.2.2.2.2.2.2.2.2.2.2.1 rfl⟩

/-- C6: the spec's worked example maps to a payload with
`sub_total = 200`, `weight = 1`, and a single order item with
`sku = "SKU-B1"`, `units = 2`, `selling_price = 100`. -/
theorem mapPayload_example_submission (d : String) (env : Option String) :
    (mapPayload exampleSubmission d env).sub_total = .num (.fin 200) ∧
    (mapPayload exampleSubmission d env).weight = .fin 1 ∧
    (mapPayload exampleSubmission d env).order_items =
      [{ name := .str "Book", sku := "SKU-B1", units := .num (.fin 2),
         selling_price := .num (.fin 100), discount := 0, tax := 0, hsn := "4901" }] := by
  refine ⟨rfl, ?_, ?_⟩
  · show JSNum.mulHalf ((asList exampleSubmission.cart).foldl addQuantity (.fin 0)) = _
    rw [foldl_addQuantity _ (by decide) 0]
    have hq : (asList exampleSubmission.cart).map quantityVal = [2] := rfl
    rw [hq]
    simp only [JSNum.mulHalf, JSNum.fin.injEq, List.sum_cons, List.sum_nil]
    norm_num
  · show (asList exampleSubmission.cart).map mkOrderItem = _
    simp [exampleSubmission, asList, mkOrderItem, getField, toStr]

/-- C7: for a validated submission, a provider 401 yields exactly the
authentication-failure body with status 401, a provider 422 yields
status 422 echoing the provider's data under `details`, and any other
HTTP error or network error yields status 500 with the underlying error
message under `details`; in every case exactly one gateway call was
made. -/
theorem createOrder_provider_outcome_translation (b : ReqBody) (d : String)
    (env : Option String) (gw : Payload → AxiosOutcome)
    (h : passesValidation b = true) :
    (∀ data msg, gw (mapPayload b d env) = .httpError 401 data msg →
      (createOrder b d env gw).status = 401 ∧
      (createOrder b d env gw).body = .err "Shiprocket authentication failed"
        (some (.str "Invalid or expired Shiprocket token")) ∧
      (createOrder b d env gw).gatewayCalls = 1) ∧
    (∀ data msg, gw (mapPayload b d env) = .httpError 422 data msg →
      (createOrder b d env gw).status = 422 ∧
      (createOrder b d env gw).body = .err "Invalid order data for Shiprocket" (some data) ∧
      (createOrder b d env gw).gatewayCalls = 1) ∧
    (∀ s data msg, s ≠ 401 → s ≠ 422 → gw (mapPayload b d env) = .httpError s data msg →
      (createOrder b d env gw).status = 500 ∧
      (createOrder b d env gw).body =
        .err "Failed to create order in Shiprocket" (some (.str msg)) ∧
      (createOrder b d env gw).gatewayCalls = 1) ∧
    (∀ msg, gw (mapPayload b d env) = .netError msg →
      (createOrder b d env gw).status = 500 ∧
      (createOrder b d env gw).body =
        .err "Failed to create order in Shiprocket" (some (.str msg)) ∧
      (createOrder b d env gw).gatewayCalls = 1) := by
  have hrun := createOrder_of_passes b d env gw h
  refine ⟨?_, ?_, ?_, ?_⟩
  · intro data msg hgw
    rw [hrun, hgw]
    exact ⟨rfl, rfl, rfl⟩
  · intro data msg hgw
    rw [hrun, hgw]
    exact ⟨rfl, rfl, rfl⟩
  · intro s data msg hs1 hs2 hgw
    rw [hrun, hgw]
    have b1 : (s == 401) = false := by simpa using hs1
    have b2 : (s == 422) = false := by simpa using hs2
    simp [translateOutcome, b1, b2, serverError]
  · intro msg hgw
    rw [hrun, hgw]
    exact ⟨rfl, rfl, rfl⟩

theorem createOrder_provider_outcome_translation_witness :
    (createOrder exampleSubmission "2025-06-01" none
        (fun _ => .httpError 401 (.obj []) "Request failed with status code 401")).status = 401 ∧
    (createOrder exampleSubmission "2025-06-01" none
        (fun _ => .httpError 401 (.obj []) "Request failed with status code 401")).body =
      .err "Shiprocket authentication failed"
        (some (.str "Invalid or expired Shiprocket token")) ∧
    (createOrder exampleSubmission "2025-06-01" none
        (fun _ => .httpError 401 (.obj []) "Request failed with status code 401")).gatewayCalls = 1 :=
  (createOrder_provider_outcome_translation exampleSubmission "2025-06-01" none
    (fun _ => .httpError 401 (.obj []) "Request failed with status code 401")
    (by decide)).1 (.obj []) "Request failed with status code 401" rfl

/-- C8 counterexample: the mapper is not a function of the submission
alone — the same submission mapped on two different dates yields
different payloads (the `order_date` field differs). -/
theorem mapPayload_not_submission_determined :
    ¬ ∀ (b : ReqBody) (d1 d2 : String) (e1 e2 : Option String),
        mapPayload b d1 e1 = mapPayload b d2 e2 := by
  intro h
  have h2 := congrArg Payload.order_date (h {} "2025-01-01" "2025-01-02" none none)
  simp [mapPayload] at h2

/-- C8 amended: given a fixed current date and pickup-location
environment the mapping is deterministic, and every payload field other
than `order_date` and `pickup_location` — in particular the order items
with their skus, and the weight — depends on the submission alone. -/
theorem mapPayload_deterministic_modulo_date_env (b : ReqBody) (d1 d2 : String)
    (e1 e2 : Option String) :
    (mapPayload b d1 e1).order_id = (mapPayload b d2 e2).order_id ∧
    (mapPayload b d1 e1).channel_id = (mapPayload b d2 e2).channel_id ∧
    (mapPayload b d1 e1).comment = (mapPayload b d2 e2).comment ∧
    (mapPayload b d1 e1).billing_customer_name = (mapPayload b d2 e2).billing_customer_name ∧
    (mapPayload b d1 e1).billing_last_name = (mapPayload b d2 e2).billing_last_name ∧
    (mapPayload b d1 e1).billing_address = (mapPayload b d2 e2).billing_address ∧
    (mapPayload b d1 e1).billing_city = (mapPayload b d2 e2).billing_city ∧
    (mapPayload b d1 e1).billing_pincode = (mapPayload b d2 e2).billing_pincode ∧
    (mapPayload b d1 e1).billing_state = (mapPayload b d2 e2).billing_state ∧
    (mapPayload b d1 e1).billing_country = (mapPayload b d2 e2).billing_country ∧
    (mapPayload b d1 e1).billing_email = (mapPayload b d2 e2).billing_email ∧
    (mapPayload b d1 e1).billing_phone = (mapPayload b d2 e2).billing_phone ∧
    (mapPayload b d1 e1).shipping_is_billing = (mapPayload b d2 e2).shipping_is_billing ∧
    (mapPayload b d1 e1).shipping_customer_name = (mapPayload b d2 e2).shipping_customer_name ∧
    (mapPayload b d1 e1).shipping_last_name = (mapPayload b d2 e2).shipping_last_name ∧
    (mapPayload b d1 e1).shipping_address = (mapPayload b d2 e2).shipping_address ∧
    (mapPayload b d1 e1).shipping_city = (mapPayload b d2 e2).shipping_city ∧
    (mapPayload b d1 e1).shipping_pincode = (mapPayload b d2 e2).shipping_pincode ∧
    (mapPayload b d1 e1).shipping_country = (mapPayload b d2 e2).shipping_country ∧
    (mapPayload b d1 e1).shipping_state = (mapPayload b d2 e2).shipping_state ∧
    (mapPayload b d1 e1).shipping_email = (mapPayload b d2 e2).shipping_email ∧
    (mapPayload b d1 e1).shipping_phone = (mapPayload b d2 e2).shipping_phone ∧
    (mapPayload b d1 e1).order_items = (mapPayload b d2 e2).order_items ∧
    (mapPayload b d1 e1).payment_method = (mapPayload b d2 e2).payment_method ∧
    (mapPayload b d1 e1).shipping_charges = (mapPayload b d2 e2).shipping_charges ∧
    (mapPayload b d1 e1).giftwrap_charges = (mapPayload b d2 e2).giftwrap_charges ∧
    (mapPayload b d1 e1).transaction_charges = (mapPayload b d2 e2).transaction_charges ∧
    (mapPayload b d1 e1).total_discount = (mapPayload b d2 e2).total_discount ∧
    (mapPayload b d1 e1).sub_total = (mapPayload b d2 e2).sub_total ∧
    (mapPayload b d1 e1).length = (mapPayload b d2 e2).length ∧
    (mapPayload b d1 e1).breadth = (mapPayload b d2 e2).breadth ∧
    (mapPayload b d1 e1).height = (mapPayload b d2 e2).height ∧
    (mapPayload b d1 e1).weight = (mapPayload b d2 e2).weight :=
  ⟨rfl, rfl, rfl, rfl, rfl, rfl, rfl, rfl, rfl, rfl, rfl, rfl, rfl, rfl, rfl, rfl, rfl,
   rfl, rfl, rfl, rfl, rfl, rfl, rfl, rfl, rfl, rfl, rfl, rfl, rfl, rfl, rfl, rfl⟩

/-- C10: `shippingCost` and `couponDiscount` are never validated — for a
submission that passes validation, any values of these two fields leave
the run on the success path (one gateway call, never a 400), with falsy
values mapping to 0 in `shipping_charges`/`total_discount` and truthy
values (negative, non-finite or non-numeric included) copied into the
payload unchanged. -/
theorem shippingCost_couponDiscount_unvalidated (b : ReqBody) (sc cd : JSVal)
    (d : String) (env : Option String) (gw : Payload → AxiosOutcome)
    (h : passesValidation b = true) :
    (createOrder { b with shippingCost := sc, couponDiscount := cd } d env gw).gatewayCalls = 1 ∧
    (createOrder { b with shippingCost := sc, couponDiscount := cd } d env gw).status ≠ 400 ∧
    (truthy sc = false →
      (mapPayload { b with shippingCost := sc, couponDiscount := cd } d env).shipping_charges =
        .num (.fin 0)) ∧
    (truthy sc = true →
      (mapPayload { b with shippingCost := sc, couponDiscount := cd } d env).shipping_charges = sc) ∧
    (truthy cd = false →
      (mapPayload { b with shippingCost := sc, couponDiscount := cd } d env).total_discount =
        .num (.fin 0)) ∧
    (truthy cd = true →
      (mapPayload { b with shippingCost := sc, couponDiscount := cd } d env).total_discount = cd) := by
  have hpass : passesValidation { b with shippingCost := sc, couponDiscount := cd } = true := h
  have hrun := createOrder_of_passes { b with shippingCost := sc, couponDiscount := cd }
    d env gw hpass
  refine ⟨?_, ?_, ?_, ?_, ?_, ?_⟩
  · rw [hrun]; exact translateOutcome_gatewayCalls _ _
  · rw [hrun]; exact translateOutcome_status_ne_400 _ _
  · intro hsc
    show jsOr sc (.num (.fin 0)) = _
    simp [jsOr, hsc]
  · intro hsc
    show jsOr sc (.num (.fin 0)) = _
    simp [jsOr, hsc]
  · intro hcd
    show jsOr cd (.num (.fin 0)) = _
    simp [jsOr, hcd]
  · intro hcd
    show jsOr cd (.num (.fin 0)) = _
    simp [jsOr, hcd]

/-- The example submission with a negative `shippingCost` and a
non-numeric `couponDiscount`. -/
def exampleWithExtras : ReqBody :=
  { exampleSubmission with
      shippingCost := .num (.fin (-5))
      couponDiscount := .str "x" }

theorem shippingCost_couponDiscount_unvalidated_witness :
    (createOrder exampleWithExtras "2025-06-01" none
        (fun _ => .ok (.obj [("order_id", .num (.fin 777))]))).gatewayCalls = 1 ∧
    (mapPayload exampleWithExtras "2025-06-01" none).shipping_charges = .num (.fin (-5)) ∧
    (mapPayload exampleWithExtras "2025-06-01" none).total_discount = .str "x" := by
  have hmain := shippingCost_couponDiscount_unvalidated exampleSubmission
    (.num (.fin (-5))) (.str "x") "2025-06-01" none
    (fun _ => .ok (.obj [("order_id", .num (.fin 777))])) (by decide)
  exact ⟨hmain.1, hmain.2.2.2.1 (by decide), hmain.2.2.2.2.2 (by decide)⟩
